import Mathlib

/- Verification development for the pedidos-vs-facturas reconciliation engine
   (src/app.py).  The core pipeline is embedded shallowly: the hour normalizer
   parse_hora, the expected-invoice-date rule determinar_fecha_factura, the
   left merge of orders to invoices on the composite key, the metric columns
   Diferencia_Caja and %_Cumplimiento_Caja, the pd.cut tier classification
   Cumplimiento_Categoria_Caja, and the post-merge Cliente column resolution. -/

/-- Raw value found in the Hora_Pedido column: absent (pd.isna), a string,
or a numeric value (the code converts every non-null input with str before
parsing, so a numeric input follows the plain-number path). -/
inductive RawHora
  | null
  | str (s : String)
  | num (q : Rat)
  deriving DecidableEq, Repr

/-- Characters removed by the Python str.strip call (common whitespace). -/
def isSpaceChar (c : Char) : Bool :=
  c == ' ' || c == '\t' || c == '\n' || c == '\r'

/-- Strip leading and trailing whitespace from a character list. -/
def trimChars (cs : List Char) : List Char :=
  ((cs.dropWhile isSpaceChar).reverse.dropWhile isSpaceChar).reverse

/-- Numeric value of a list of decimal digit characters. -/
def digitsVal (cs : List Char) : Nat :=
  cs.foldl (fun a c => a * 10 + (c.toNat - 48)) 0

/-- Helper for pyIntOfChars: digits after the optional sign. -/
def pyIntDigits (neg : Bool) (cs : List Char) : Option Int :=
  if cs.isEmpty || !(cs.all Char.isDigit) then none
  else if neg then some (-(digitsVal cs : Int)) else some ((digitsVal cs : Int))

/-- Model of the Python builtin int applied to a string: optional surrounding
whitespace, an optional sign, then one or more decimal digits; anything else
raises ValueError, which the caller catches (modelled as none). -/
def pyIntOfChars (cs0 : List Char) : Option Int :=
  match trimChars cs0 with
  | '-' :: rest => pyIntDigits true rest
  | '+' :: rest => pyIntDigits false rest
  | cs => pyIntDigits false cs

/-- Helper for pyFloatOfChars: unsigned decimal literal, digits with an
optional fractional part. -/
def pyFloatBody (cs : List Char) : Option Rat :=
  match cs.dropWhile Char.isDigit with
  | [] =>
      if (cs.takeWhile Char.isDigit).isEmpty then none
      else some ((digitsVal (cs.takeWhile Char.isDigit) : Int) : Rat)
  | '.' :: frac =>
      if !(frac.all Char.isDigit) then none
      else if (cs.takeWhile Char.isDigit).isEmpty && frac.isEmpty then none
      else some (mkRat
        ((digitsVal (cs.takeWhile Char.isDigit)) * 10 ^ frac.length + digitsVal frac : Int)
        (10 ^ frac.length))
  | _ => none

/-- Model of the Python builtin float applied to a string: optional
whitespace and sign, then a plain decimal literal.  Other inputs raise,
which the caller catches (modelled as none). -/
def pyFloatOfChars (cs0 : List Char) : Option Rat :=
  match trimChars cs0 with
  | '-' :: rest => (pyFloatBody rest).map (fun q => -q)
  | '+' :: rest => pyFloatBody rest
  | cs => pyFloatBody cs

/-- Truncation toward zero, the behaviour of the Python builtin int on a
float value. -/
def truncTowardZero (q : Rat) : Int :=
  if q < 0 then -(((q.num.natAbs / q.den : Nat)) : Int) else (((q.num.natAbs / q.den : Nat)) : Int)

/-- Embedding of parse_hora (src/app.py lines 30-46).  A null input (pd.isna)
yields nothing.  Any other input is converted with str and stripped; if the
text contains a colon, the code runs int on the part before the first colon;
otherwise it runs int(float(text)).  Both attempts catch every exception and
yield nothing.  For a numeric raw value the str-then-float round trip is the
identity, so that case is int(float(str(q))) = truncation of q toward zero. -/
def parse_hora : RawHora → Option Int
  | .null => none
  | .num q => some (truncTowardZero q)
  | .str s =>
      if (trimChars s.toList).contains ':' then
        pyIntOfChars ((trimChars s.toList).takeWhile (fun c => c != ':'))
      else
        (pyFloatOfChars (trimChars s.toList)).map truncTowardZero

/-- Day count from the civil epoch 1970-01-01 for a Gregorian date with year
at least 1 (the Hinnant days-from-civil algorithm); dates in the embedding
are such day counts. -/
def daysFromCivil (y m d : Nat) : Int :=
  let ys := if m ≤ 2 then y - 1 else y
  let era := ys / 400
  let yoe := ys % 400
  let mp := (m + 9) % 12
  let doy := (153 * mp + 2) / 5 + d - 1
  let doe := yoe * 365 + yoe / 4 - yoe / 100 + doy
  (era * 146097 + doe : Int) - 719468

/-- Weekday of a day count, Python convention: Monday = 0 ... Sunday = 6
(1970-01-01, day 0, was a Thursday). -/
def pyWeekday (z : Int) : Int :=
  (z + 3).emod 7

/-- Embedding of determinar_fecha_factura (src/app.py lines 48-53): Saturday
orders expect their invoice two days later, all other weekdays one day later. -/
def determinar_fecha_factura (z : Int) : Int :=
  if pyWeekday z = 5 then z + 2 else z + 1

/-- Raw order row, before hour processing: the Hora_Pedido column still holds
its raw value.  Labels are optional because a CSV cell can be empty. -/
structure RawPedido where
  id_Pedido : Nat
  id_Cliente : Nat
  vendedor : String
  id_Producto : Nat
  cliente : Option String
  producto : Option String
  region : String
  fecha_Pedido : Int
  hora_Pedido : RawHora
  monto_Pedido : Rat
  deriving DecidableEq, Repr

/-- Order row of the working set: the hour has been parsed and cast to int. -/
structure Pedido where
  id_Pedido : Nat
  id_Cliente : Nat
  vendedor : String
  id_Producto : Nat
  cliente : Option String
  producto : Option String
  region : String
  fecha_Pedido : Int
  hora_Pedido : Int
  monto_Pedido : Rat
  deriving DecidableEq, Repr

/-- Invoice row.  The optional cliente field is the invoice-side label column
when the facturas table carries one. -/
structure Factura where
  id_Cliente : Nat
  vendedor : String
  id_Producto : Nat
  fecha_Factura : Int
  monto_Factura : Rat
  cliente : Option String
  deriving DecidableEq, Repr

/-- Build the working-set row from a raw row and its parsed hour. -/
def fijarHora (rp : RawPedido) (h : Int) : Pedido :=
  { id_Pedido := rp.id_Pedido
    id_Cliente := rp.id_Cliente
    vendedor := rp.vendedor
    id_Producto := rp.id_Producto
    cliente := rp.cliente
    producto := rp.producto
    region := rp.region
    fecha_Pedido := rp.fecha_Pedido
    hora_Pedido := h
    monto_Pedido := rp.monto_Pedido }

/-- Embedding of the hour-processing block (src/app.py lines 71-73): apply
parse_hora to the Hora_Pedido column, drop the rows where it produced NaN,
cast the survivors to int. -/
def procesarHoras (l : List RawPedido) : List Pedido :=
  l.filterMap (fun rp => (parse_hora rp.hora_Pedido).map (fijarHora rp))

/-- Composite join key comparison of the merge (src/app.py lines 82-89): the
order side uses the derived Fecha_Factura_Esperada column, the invoice side
its Fecha_Factura, equality exact on all four fields. -/
def joinKeyMatches (p : Pedido) (f : Factura) : Bool :=
  p.id_Cliente == f.id_Cliente && p.vendedor == f.vendedor &&
    p.id_Producto == f.id_Producto &&
    determinar_fecha_factura p.fecha_Pedido == f.fecha_Factura

/-- Row of the merged frame: the order fields plus the matched invoice fields,
none when the left join found no matching invoice. -/
structure MergedRow where
  pedido : Pedido
  factura : Option Factura
  deriving DecidableEq, Repr

/-- Rows the left merge emits for one order: one row per matching invoice, in
invoice-table order, or a single row with null invoice fields when no invoice
matches (pandas left-merge semantics, including duplicate-key fan-out). -/
def mergeOne (fs : List Factura) (p : Pedido) : List MergedRow :=
  if (fs.filter (joinKeyMatches p)).isEmpty then [⟨p, none⟩]
  else (fs.filter (joinKeyMatches p)).map (fun f => ⟨p, some f⟩)

/-- Embedding of the pd.merge call with how set to left (src/app.py lines
82-89): every order contributes its block of rows, in order-table order. -/
def leftMerge (ps : List Pedido) (fs : List Factura) : List MergedRow :=
  ps.flatMap (mergeOne fs)

/-- Matched invoice amount with fillna(0): 0 when the row is unmatched. -/
def monto_Factura_o0 (r : MergedRow) : Rat :=
  match r.factura with
  | none => 0
  | some f => f.monto_Factura

/-- Embedding of the Diferencia_Caja column (src/app.py line 107). -/
def diferencia_Caja (r : MergedRow) : Rat :=
  r.pedido.monto_Pedido - monto_Factura_o0 r

/-- Embedding of the %_Cumplimiento_Caja column (src/app.py lines 108-112):
np.where keeps the ratio only where the order amount is positive and places
0 everywhere else. -/
def cumplimiento_Caja (r : MergedRow) : Rat :=
  if 0 < r.pedido.monto_Pedido then monto_Factura_o0 r / r.pedido.monto_Pedido * 100 else 0

/-- Fulfillment tier labels of the pd.cut call. -/
inductive Categoria
  | nada
  | bajo
  | medio
  | alto
  | completo
  deriving DecidableEq, Repr

/-- Embedding of the Cumplimiento_Categoria_Caja column (src/app.py lines
115-119): pd.cut with bins [-1, 0, 50, 80, 95, 100] and right-closed
intervals, so a value lands in (-1,0] → Nada, (0,50] → Bajo, (50,80] → Medio,
(80,95] → Alto, (95,100] → Completo, and any value at most -1 or above 100
falls outside every bin and gets NaN (none). -/
def cumplimiento_categoria_caja (pct : Rat) : Option Categoria :=
  if pct ≤ -1 then none
  else if pct ≤ 0 then some .nada
  else if pct ≤ 50 then some .bajo
  else if pct ≤ 80 then some .medio
  else if pct ≤ 95 then some .alto
  else if pct ≤ 100 then some .completo
  else none

/-- Invoice-side client label of a merged row: null when the row is unmatched
or the invoice cell was empty. -/
def facturaLabel (r : MergedRow) : Option String :=
  r.factura.bind Factura.cliente

/-- Embedding of the Cliente-column resolution after the merge (src/app.py
lines 92-100).  Pandas suffixes apply only to overlapping columns, so: when
both tables carry a Cliente column the merged frame has Cliente_Pedido and
Cliente_Factura and the first branch assigns the order-side value
unconditionally (the Cliente_Factura elif is unreachable); when exactly one
table carries it the column survives unsuffixed and the pass branch keeps
that side's values; when neither does, the load fails (outer none).  The
inner option is the per-row label value, which can itself be null. -/
def resolverCliente (pedidosTieneCliente facturasTieneCliente : Bool) (r : MergedRow) :
    Option (Option String) :=
  if pedidosTieneCliente && facturasTieneCliente then some r.pedido.cliente
  else if pedidosTieneCliente then some r.pedido.cliente
  else if facturasTieneCliente then some (facturaLabel r)
  else none

/-- Embedding of the data-shaping part of load_data (src/app.py lines 56-121):
the returned triple (pedidos, facturas, merged) after hour processing and the
left merge.  The metric and label columns of the merged frame are functions
of these rows and are modelled by the column functions above. -/
def load_data (rawPedidos : List RawPedido) (facturas : List Factura) :
    List Pedido × List Factura × List MergedRow :=
  (procesarHoras rawPedidos, facturas, leftMerge (procesarHoras rawPedidos) facturas)

/-- Sample working-set order: Monday 2024-03-04, amount 100 (scenario A/B shape). -/
def pedidoLunes : Pedido :=
  { id_Pedido := 1
    id_Cliente := 10
    vendedor := "S1"
    id_Producto := 7
    cliente := some ("C1")
    producto := some ("P1")
    region := "Norte"
    fecha_Pedido := daysFromCivil 2024 3 4
    hora_Pedido := 9
    monto_Pedido := 100 }

/-- Sample invoice matching the key of pedidoLunes (expected date 2024-03-05). -/
def facturaUna : Factura :=
  { id_Cliente := 10
    vendedor := "S1"
    id_Producto := 7
    fecha_Factura := daysFromCivil 2024 3 5
    monto_Factura := 60
    cliente := some ("C1") }

/-- Second invoice sharing the same join key as facturaUna. -/
def facturaDos : Factura :=
  { facturaUna with monto_Factura := 40 }

/-- Over-invoice: amount 120 against the 100 of pedidoLunes (scenario D). -/
def facturaSobre : Factura :=
  { facturaUna with monto_Factura := 120 }

/-- Order whose client label cell is empty. -/
def pedidoSinLabel : Pedido :=
  { pedidoLunes with cliente := none }

/-- Matching invoice that does carry a client label. -/
def facturaAcme : Factura :=
  { facturaUna with monto_Factura := 100, cliente := some ("ACME") }

/-- Zero-amount order. -/
def pedidoCero : Pedido :=
  { pedidoLunes with id_Pedido := 5, monto_Pedido := 0 }

/-- Saturday order 2024-03-02, amount 50 (scenario C). -/
def pedidoSabado : Pedido :=
  { pedidoLunes with id_Pedido := 4, fecha_Pedido := daysFromCivil 2024 3 2, monto_Pedido := 50 }

/-- Invoice dated Sunday 2024-03-03, which must not match pedidoSabado. -/
def facturaDomingo : Factura :=
  { facturaUna with fecha_Factura := daysFromCivil 2024 3 3, monto_Factura := 50 }

/-- Raw order whose hour field parses (scenario E, first half). -/
def rawPedidoBueno : RawPedido :=
  { id_Pedido := 1
    id_Cliente := 10
    vendedor := "S1"
    id_Producto := 7
    cliente := some ("C1")
    producto := some ("P1")
    region := "Norte"
    fecha_Pedido := daysFromCivil 2024 3 4
    hora_Pedido := RawHora.str ("14:30")
    monto_Pedido := 100 }

/-- Raw order whose hour field is unparseable (scenario E, second half). -/
def rawPedidoMalo : RawPedido :=
  { rawPedidoBueno with id_Pedido := 2, hora_Pedido := RawHora.str ("garbage") }

/-- Raw order whose hour field holds the out-of-range value 99. -/
def rawPedido99 : RawPedido :=
  { rawPedidoBueno with id_Pedido := 3, hora_Pedido := RawHora.str ("99") }

/-- Helper: on a nonnegative rational, truncation toward zero is the floor;
on a negative rational it is the ceiling.  This is exactly the behaviour of
the Python builtin int on a float. -/
theorem truncTowardZero_eq (q : Rat) :
    (0 ≤ q → truncTowardZero q = ⌊q⌋) ∧ (q < 0 → truncTowardZero q = ⌈q⌉) := by
  have base : ∀ r : Rat, 0 ≤ r → truncTowardZero r = ⌊r⌋ := by
    intro r hr
    unfold truncTowardZero
    rw [if_neg (not_lt.mpr hr), Rat.floor_def, Int.ofNat_ediv,
      Int.natAbs_of_nonneg (Rat.num_nonneg.mpr hr)]
  refine ⟨base q, fun h => ?_⟩
  have h1 : (0:Rat) ≤ -q := by linarith
  have hceil : ⌈q⌉ = -⌊-q⌋ := by rw [← Int.ceil_neg, neg_neg]
  have htz : truncTowardZero q = -truncTowardZero (-q) := by
    unfold truncTowardZero
    rw [if_pos h, if_neg (not_lt.mpr h1)]
    have e1 : (-q).num.natAbs = q.num.natAbs := by
      have e : (-q).num = -q.num := rfl
      rw [e, Int.natAbs_neg]
    have e2 : (-q).den = q.den := rfl
    rw [e1, e2]
  rw [htz, base (-q) h1, hceil]

/-- C1 counterexample: two invoices (facturaUna, facturaDos) share the join
key of the single order pedidoLunes, and the left merge emits two rows for
that one order instead of one row with one deterministically selected
invoice. -/
theorem c1_counterexample :
    (leftMerge [pedidoLunes] [facturaUna, facturaDos]).length = 2 ∧
    (leftMerge [pedidoLunes] [facturaUna, facturaDos]).length ≠ 1 ∧
    leftMerge [pedidoLunes] [facturaUna, facturaDos] =
      [⟨pedidoLunes, some facturaUna⟩, ⟨pedidoLunes, some facturaDos⟩] := by
  refine ⟨?_, ?_, ?_⟩ <;> decide

/-- C1 (amended): the left join never drops an order: each working-set order
contributes a contiguous block of at least one merged row, every row of the
block carries that order, the block is a single null-invoice row when no
invoice matches the key, exactly one row when at most one invoice matches,
and k rows when k invoices share the key (pandas duplicate-key fan-out, no
deterministic selection of a single invoice). -/
theorem c1_left_join_block_structure (fs : List Factura) (p : Pedido) :
    (∀ r ∈ mergeOne fs p, r.pedido = p) ∧
    1 ≤ (mergeOne fs p).length ∧
    (mergeOne fs p).length = max 1 (fs.filter (joinKeyMatches p)).length ∧
    (fs.filter (joinKeyMatches p) = [] → mergeOne fs p = [⟨p, none⟩]) ∧
    ((fs.filter (joinKeyMatches p)).length ≤ 1 → (mergeOne fs p).length = 1) ∧
    (∀ ps : List Pedido, leftMerge ps fs = ps.flatMap (mergeOne fs)) := by
  rcases h : fs.filter (joinKeyMatches p) with _ | ⟨f, t⟩
  · refine ⟨?_, ?_, ?_, fun _ => ?_, fun _ => ?_, fun ps => rfl⟩ <;>
      simp [mergeOne, h]
  · refine ⟨?_, ?_, ?_, fun hc => ?_, fun hc => ?_, fun ps => rfl⟩
    · intro r hr
      rw [mergeOne, h] at hr
      simp at hr
      rcases hr with heq | ⟨f', _, heq⟩ <;> subst heq <;> rfl
    · simp [mergeOne, h]
    · simp [mergeOne, h]
    · exact absurd (h ▸ hc) (List.cons_ne_nil f t)
    · have hl : t.length + 1 ≤ 1 := by simpa using hc
      have ht : t = [] := List.length_eq_zero.mp (by omega)
      subst ht
      simp [mergeOne, h]

/-- C1 witness: applying the block-structure theorem to the scenario-C data
(no invoice matches the Saturday order) yields its single null-invoice row. -/
theorem c1_left_join_block_structure_witness :
    mergeOne [facturaDomingo] pedidoSabado = [⟨pedidoSabado, none⟩] :=
  (c1_left_join_block_structure [facturaDomingo] pedidoSabado).2.2.2.1 (by decide)

/-- C2 counterexample: the over-invoiced scenario-D record (order amount 100,
invoice amount 120) has fulfillment 120 and shortfall -20, but pd.cut leaves
it without a tier (none) rather than clamping it into Completo. -/
theorem c2_counterexample :
    cumplimiento_Caja ⟨pedidoLunes, some facturaSobre⟩ = 120 ∧
    diferencia_Caja ⟨pedidoLunes, some facturaSobre⟩ = -20 ∧
    cumplimiento_categoria_caja (cumplimiento_Caja ⟨pedidoLunes, some facturaSobre⟩) = none ∧
    cumplimiento_categoria_caja (cumplimiento_Caja ⟨pedidoLunes, some facturaSobre⟩) ≠
      some Categoria.completo := by
  have h1 : cumplimiento_Caja ⟨pedidoLunes, some facturaSobre⟩ = 120 := by
    norm_num [cumplimiento_Caja, monto_Factura_o0, pedidoLunes, facturaSobre, facturaUna]
  have h2 : cumplimiento_categoria_caja (120 : Rat) = none := by
    norm_num [cumplimiento_categoria_caja]
  refine ⟨h1, ?_, h1 ▸ h2, h1 ▸ h2 ▸ by simp⟩
  norm_num [diferencia_Caja, monto_Factura_o0, pedidoLunes, facturaSobre, facturaUna]

/-- C2 (amended): every reconciled record whose fulfillment percentage is
strictly greater than 100 falls outside all pd.cut bins and is left without
a tier (none), not clamped into Completo. -/
theorem c2_over_invoiced_no_tier (r : MergedRow) (h : 100 < cumplimiento_Caja r) :
    cumplimiento_categoria_caja (cumplimiento_Caja r) = none := by
  unfold cumplimiento_categoria_caja
  split_ifs <;> first | rfl | (exfalso; linarith)

/-- C2 witness: the amended theorem applied to the concrete scenario-D record. -/
theorem c2_over_invoiced_no_tier_witness :
    cumplimiento_categoria_caja (cumplimiento_Caja ⟨pedidoLunes, some facturaSobre⟩) = none :=
  c2_over_invoiced_no_tier ⟨pedidoLunes, some facturaSobre⟩
    (by norm_num [cumplimiento_Caja, monto_Factura_o0, pedidoLunes, facturaSobre, facturaUna])

/-- C3: tier classification on [0, 100] is total (every percentage receives a
tier, and as the value of a function, exactly one) and follows the
closed-right bins: 0 → Nada, (0,50] → Bajo, (50,80] → Medio, (80,95] → Alto,
(95,100] → Completo. -/
theorem c3_tier_partition (pct : Rat) (h0 : 0 ≤ pct) (h100 : pct ≤ 100) :
    (pct = 0 → cumplimiento_categoria_caja pct = some Categoria.nada) ∧
    (0 < pct → pct ≤ 50 → cumplimiento_categoria_caja pct = some Categoria.bajo) ∧
    (50 < pct → pct ≤ 80 → cumplimiento_categoria_caja pct = some Categoria.medio) ∧
    (80 < pct → pct ≤ 95 → cumplimiento_categoria_caja pct = some Categoria.alto) ∧
    (95 < pct → cumplimiento_categoria_caja pct = some Categoria.completo) ∧
    (∃ c, cumplimiento_categoria_caja pct = some c) := by
  refine ⟨fun h1 => ?_, fun h1 h2 => ?_, fun h1 h2 => ?_, fun h1 h2 => ?_, fun h1 => ?_, ?_⟩ <;>
    · unfold cumplimiento_categoria_caja
      split_ifs <;> first | rfl | exact ⟨_, rfl⟩ | (exfalso; linarith)

/-- C3 witness: the partition theorem applied at the boundary values 50 and
100. -/
theorem c3_tier_partition_witness :
    cumplimiento_categoria_caja 50 = some Categoria.bajo ∧
    cumplimiento_categoria_caja 100 = some Categoria.completo := by
  constructor
  · exact (c3_tier_partition 50 (by norm_num) (by norm_num)).2.1 (by norm_num) (by norm_num)
  · exact (c3_tier_partition 100 (by norm_num) (by norm_num)).2.2.2.2.1 (by norm_num)

/-- C4 counterexample: with both tables carrying a client-label column, a
record whose order-side label is empty keeps a null resolved label even
though its matched invoice carries the label ACME: the invoice fallback the
claim describes never happens and the record is left with a null label. -/
theorem c4_counterexample :
    resolverCliente true true ⟨pedidoSinLabel, some facturaAcme⟩ = some none ∧
    facturaLabel ⟨pedidoSinLabel, some facturaAcme⟩ = some ("ACME") ∧
    pedidoSinLabel.cliente = none ∧
    joinKeyMatches pedidoSinLabel facturaAcme = true := by
  refine ⟨?_, ?_, ?_, ?_⟩ <;> decide

/-- C4 (amended): the client display label is driven by column presence, not
per-record fallback: when the orders table carries the label column (whether
or not the invoices table does) every record gets the order-side label
unconditionally, even when it is null and the invoice label is not; the
invoice-side label is used only when the orders table lacks the column
entirely; and when neither table carries it the load fails (outer none). -/
theorem c4_cliente_resolution (r : MergedRow) :
    resolverCliente true true r = some r.pedido.cliente ∧
    resolverCliente true false r = some r.pedido.cliente ∧
    resolverCliente false true r = some (facturaLabel r) ∧
    resolverCliente false false r = none :=
  ⟨rfl, rfl, rfl, rfl⟩

/-- C5: fulfillment percentage is 0 whenever the order amount is 0 (no
division is attempted), and equals matched-invoice-amount over order-amount
times 100 whenever the order amount is strictly positive. -/
theorem c5_cumplimiento_pct (r : MergedRow) :
    (r.pedido.monto_Pedido = 0 → cumplimiento_Caja r = 0) ∧
    (0 < r.pedido.monto_Pedido →
      cumplimiento_Caja r = monto_Factura_o0 r / r.pedido.monto_Pedido * 100) := by
  constructor
  · intro h
    unfold cumplimiento_Caja
    rw [if_neg (by rw [h]; exact lt_irrefl 0)]
  · intro h
    unfold cumplimiento_Caja
    rw [if_pos h]

/-- C5 witness: a zero-amount order matched to an invoice of amount 60 still
gets fulfillment percentage 0. -/
theorem c5_cumplimiento_pct_witness :
    cumplimiento_Caja ⟨pedidoCero, some facturaUna⟩ = 0 :=
  (c5_cumplimiento_pct ⟨pedidoCero, some facturaUna⟩).1 rfl

/-- C6: shortfall is always the order amount minus the matched invoice amount
with fillna(0), and an unmatched order has matched amount 0, hence shortfall
equal to its full order amount. -/
theorem c6_shortfall (r : MergedRow) :
    diferencia_Caja r = r.pedido.monto_Pedido - monto_Factura_o0 r ∧
    (r.factura = none → monto_Factura_o0 r = 0 ∧
      diferencia_Caja r = r.pedido.monto_Pedido) := by
  refine ⟨rfl, fun h => ?_⟩
  have h0 : monto_Factura_o0 r = 0 := by
    unfold monto_Factura_o0
    rw [h]
  refine ⟨h0, ?_⟩
  unfold diferencia_Caja
  rw [h0, sub_zero]

/-- C6 witness: the unmatched scenario-A order of amount 100 has shortfall
100. -/
theorem c6_shortfall_witness :
    diferencia_Caja ⟨pedidoLunes, none⟩ = 100 :=
  ((c6_shortfall ⟨pedidoLunes, none⟩).2 rfl).2

/-- C7: the expected-invoice-date rule is total and pure: a Saturday order
date expects its invoice two days later and every other weekday one day
later; concretely, Saturday 2024-03-02 expects Monday 2024-03-04, an invoice
dated 2024-03-03 does not share that key and so does not match (scenario C:
the Saturday order stays unmatched with shortfall 50). -/
theorem c7_expected_date :
    (∀ z : Int, pyWeekday z = 5 → determinar_fecha_factura z = z + 2) ∧
    (∀ z : Int, pyWeekday z ≠ 5 → determinar_fecha_factura z = z + 1) ∧
    pyWeekday (daysFromCivil 2024 3 2) = 5 ∧
    determinar_fecha_factura (daysFromCivil 2024 3 2) = daysFromCivil 2024 3 4 ∧
    pyWeekday (daysFromCivil 2024 3 4) = 0 ∧
    daysFromCivil 2024 3 4 ≠ daysFromCivil 2024 3 3 ∧
    joinKeyMatches pedidoSabado facturaDomingo = false ∧
    leftMerge [pedidoSabado] [facturaDomingo] = [⟨pedidoSabado, none⟩] := by
  refine ⟨fun z h => ?_, fun z h => ?_, ?_, ?_, ?_, ?_, ?_, ?_⟩
  · unfold determinar_fecha_factura
    rw [if_pos h]
  · unfold determinar_fecha_factura
    rw [if_neg h]
  all_goals decide

/-- C7 witness: the Saturday rule applied at the concrete day count of
2024-03-02. -/
theorem c7_expected_date_witness :
    determinar_fecha_factura (daysFromCivil 2024 3 2) = daysFromCivil 2024 3 2 + 2 :=
  c7_expected_date.1 (daysFromCivil 2024 3 2) (by decide)

/-- C8 counterexample: the raw hour 99 parses to 99 (parse_hora applies no
range check) and the corresponding order survives into the working set with
order hour 99, outside 0..23. -/
theorem c8_counterexample :
    parse_hora (RawHora.str ("99")) = some 99 ∧
    ¬ ((99 : Int) ≤ 23) ∧
    procesarHoras [rawPedido99] = [fijarHora rawPedido99 99] ∧
    (fijarHora rawPedido99 99).hora_Pedido = 99 := by
  refine ⟨?_, ?_, ?_, ?_⟩ <;> decide

/-- C8 (amended): parse_hora either yields nothing or yields an integer, but
enforces no 0..23 range: every order surviving into the working set carries
exactly the integer parse_hora produced for its raw hour field, whatever its
value (so the raw hour 99 survives as hour 99). -/
theorem c8_hour_unbounded (l : List RawPedido) (p : Pedido) (hp : p ∈ procesarHoras l) :
    ∃ rp, rp ∈ l ∧ parse_hora rp.hora_Pedido = some p.hora_Pedido := by
  unfold procesarHoras at hp
  rcases List.mem_filterMap.mp hp with ⟨rp, hmem, heq⟩
  rcases Option.map_eq_some'.mp heq with ⟨h, hph, hfij⟩
  subst hfij
  exact ⟨rp, hmem, by simpa [fijarHora] using hph⟩

/-- C8 witness: the amended theorem applied to the concrete out-of-range raw
order. -/
theorem c8_hour_unbounded_witness :
    ∃ rp, rp ∈ [rawPedido99] ∧
      parse_hora rp.hora_Pedido = some (fijarHora rawPedido99 99).hora_Pedido :=
  c8_hour_unbounded [rawPedido99] (fijarHora rawPedido99 99) (by decide)

/-- C9: parse_hora is total (no exception escapes: every input yields a
normal Option result); it yields nothing on a null input; on text containing
a colon it yields the int of the component before the first colon, so 14:30
gives 14, and nothing when that component is not an integer; on plain text
it yields the float parse truncated toward zero, where truncation toward
zero is floor for nonnegative values and ceiling for negative ones; garbage
yields nothing; and a numeric raw value is truncated toward zero. -/
theorem c9_parse_hora_behaviour :
    parse_hora RawHora.null = none ∧
    parse_hora (RawHora.str ("14:30")) = some 14 ∧
    parse_hora (RawHora.str ("garbage")) = none ∧
    (∀ q : Rat, parse_hora (RawHora.num q) = some (truncTowardZero q)) ∧
    (∀ q : Rat, 0 ≤ q → parse_hora (RawHora.num q) = some ⌊q⌋) ∧
    (∀ q : Rat, q < 0 → parse_hora (RawHora.num q) = some ⌈q⌉) ∧
    (∀ s : String, (trimChars s.toList).contains ':' = true →
      parse_hora (RawHora.str s) =
        pyIntOfChars ((trimChars s.toList).takeWhile (fun c => c != ':'))) ∧
    (∀ s : String, (trimChars s.toList).contains ':' = false →
      parse_hora (RawHora.str s) = (pyFloatOfChars (trimChars s.toList)).map truncTowardZero) := by
  refine ⟨rfl, by decide, by decide, fun q => rfl, fun q hq => ?_, fun q hq => ?_,
    fun s hs => ?_, fun s hs => ?_⟩
  · rw [show parse_hora (RawHora.num q) = some (truncTowardZero q) from rfl,
      (truncTowardZero_eq q).1 hq]
  · rw [show parse_hora (RawHora.num q) = some (truncTowardZero q) from rfl,
      (truncTowardZero_eq q).2 hq]
  · simp only [parse_hora]
    rw [if_pos hs]
  · simp only [parse_hora]
    rw [if_neg (by rw [hs]; exact Bool.false_ne_true)]

/-- C9 witness: the plain-number branch applied to the concrete string 7
surrounded by whitespace. -/
theorem c9_parse_hora_behaviour_witness :
    parse_hora (RawHora.str (" 7 ")) =
      (pyFloatOfChars (trimChars (" 7 ").toList)).map truncTowardZero :=
  c9_parse_hora_behaviour.2.2.2.2.2.2.2 (" 7 ") (by decide)

/-- C10 counterexample: the load output on an input containing an
unparseable-hour row is literally identical to the load output without that
row: the excluded row leaves no trace, so no count of excluded rows is
reported anywhere in the result (the claimed visible diagnostics summary
does not exist). -/
theorem c10_counterexample :
    load_data [rawPedidoBueno, rawPedidoMalo] [facturaUna] =
      load_data [rawPedidoBueno] [facturaUna] ∧
    parse_hora rawPedidoMalo.hora_Pedido = none ∧
    procesarHoras [rawPedidoBueno, rawPedidoMalo] = [fijarHora rawPedidoBueno 14] := by
  refine ⟨?_, ?_, ?_⟩ <;> decide

/-- C10 (amended): an order whose hour field is unparseable is handled
non-fatally: the row is excluded from the working order set while every
other order is still processed, but the exclusion is silent: the entire
load output on the input with the bad row equals the output without it, so
no count or diagnostic of the dropped rows is produced. -/
theorem c10_silent_exclusion (l1 l2 : List RawPedido) (fs : List Factura) (bad : RawPedido)
    (h : parse_hora bad.hora_Pedido = none) :
    procesarHoras (l1 ++ bad :: l2) = procesarHoras (l1 ++ l2) ∧
    load_data (l1 ++ bad :: l2) fs = load_data (l1 ++ l2) fs := by
  have hb : (fun rp : RawPedido => (parse_hora rp.hora_Pedido).map (fijarHora rp)) bad
      = none := by
    simp [h]
  have hcons :
      List.filterMap (fun rp : RawPedido => (parse_hora rp.hora_Pedido).map (fijarHora rp))
          (bad :: l2) =
        List.filterMap (fun rp : RawPedido => (parse_hora rp.hora_Pedido).map (fijarHora rp)) l2 :=
    List.filterMap_cons_none hb
  have hp : procesarHoras (l1 ++ bad :: l2) = procesarHoras (l1 ++ l2) := by
    unfold procesarHoras
    rw [List.filterMap_append, List.filterMap_append, hcons]
  refine ⟨hp, ?_⟩
  unfold load_data
  rw [hp]

/-- C10 witness: the amended theorem applied to the concrete scenario-E data
(one good row, one garbage-hour row). -/
theorem c10_silent_exclusion_witness :
    load_data ([rawPedidoBueno] ++ rawPedidoMalo :: []) [facturaUna] =
      load_data ([rawPedidoBueno] ++ []) [facturaUna] :=
  (c10_silent_exclusion [rawPedidoBueno] [] [facturaUna] rawPedidoMalo (by decide)).2
